import Mathlib

/-!
# gojenkins: the Node resource proxy (`node.go`)

A shallow embedding of the methods of `Node` in `node.go` and the properties of
its online/offline handling, log retrieval and deletion.

## Modelling conventions

* The shared HTTP requester (`n.Jenkins.Requester`) is not part of `node.go`.
  It is taken as a parameter: a record of three handlers over an arbitrary
  server state `σ`.  Every handler may change the server state and answers with
  either a status code or an error, so a value of `Requester σ` together with an
  initial `σ` is one "server behaviour".
* `GetJSON` decodes into the snapshot `n.Raw` through a pointer; the handler
  therefore receives the old snapshot and returns the new one (also when it
  reports an error: a failed decode may have written some fields already).
* A `World` is the server state plus the trace of requests issued so far.  The
  trace is instrumentation: the three `Node.request*` wrappers append one entry
  per requester call and do nothing else.
* Go's `(T, error)` results are pairs `T × Option GoError`; a run-time panic
  (index out of range, failed type assertion) is the `Outcome.panic` result.
* `n.Raw` and `n.Jenkins` are taken to be non-nil pointers, as the owning client
  constructs them.
-/

namespace Gojenkins

/-! ## Go values -/

/-- A dynamically typed Go value (`interface{}`), as far as `node.go` looks
into one: it only ever asserts that a value is a `string`. -/
inductive GoAny where
  | nil
  | bool (b : Bool)
  | int (i : Int)
  | str (s : String)
  | other (tag : Nat)
deriving DecidableEq, Repr

/-- A Go `error` value, identified by the text its `Error()` method yields. -/
structure GoError where
  Error : String
deriving DecidableEq, Repr

/-- `errors.New(text)`. -/
def errors.New (text : String) : GoError := ⟨text⟩

/-- Result of running a Go function body: it returns a value or panics. -/
inductive Outcome (α : Type) where
  | ret (a : α)
  | panic (msg : String)
deriving DecidableEq, Repr

/-- The type assertion `v.(string)`: panics unless the dynamic type is string. -/
def GoAny.assertString : GoAny → Outcome String
  | .str s => .ret s
  | _ => .panic "interface conversion: interface {} is not string"

/-- The index expression `options[0]` on a slice: panics on an empty slice. -/
def index0 : List GoAny → Outcome GoAny
  | [] => .panic "runtime error: index out of range [0] with length 0"
  | v :: _ => .ret v

/-! ## Data model (`node.go` lines 24-88) -/

/-- Element type of `NodeResponse.AssignedLabels`. -/
structure AssignedLabel where
  Name : String
deriving DecidableEq, Repr

/-- Element type of `CurrentExecutable.SubBuilds`. -/
structure SubBuild where
  Abort : Bool
  Build : GoAny
  BuildNumber : Int
  Duration : String
  Icon : String
  JobName : String
  ParentBuildNumber : Int
  ParentJobName : String
  PhaseName : String
  Result : String
  Retry : Bool
  URL : String
deriving DecidableEq, Repr

/-- The `CurrentExecutable` member of an executor. -/
structure CurrentExecutable where
  Number : Int
  URL : String
  SubBuilds : List SubBuild
deriving DecidableEq, Repr

/-- Element type of `NodeResponse.Executors`. -/
structure Executor where
  CurrentExecutable : CurrentExecutable
deriving DecidableEq, Repr

/-- The `Hudson_NodeMonitors_ResponseTimeMonitor` member of the monitor data. -/
structure ResponseTimeMonitor where
  Average : Int
deriving DecidableEq, Repr

/-- The `MonitorData` member of `NodeResponse`. -/
structure MonitorData where
  Hudson_NodeMonitors_ArchitectureMonitor : GoAny
  Hudson_NodeMonitors_ClockMonitor : GoAny
  Hudson_NodeMonitors_DiskSpaceMonitor : GoAny
  Hudson_NodeMonitors_ResponseTimeMonitor : ResponseTimeMonitor
  Hudson_NodeMonitors_SwapSpaceMonitor : GoAny
  Hudson_NodeMonitors_TemporarySpaceMonitor : GoAny
deriving DecidableEq, Repr

/-- The snapshot of a node's JSON representation (`type NodeResponse`). -/
structure NodeResponse where
  Class : String
  Actions : List GoAny
  DisplayName : String
  Description : String
  AssignedLabels : List AssignedLabel
  Executors : List Executor
  Icon : String
  IconClassName : String
  Idle : Bool
  JnlpAgent : Bool
  LaunchSupported : Bool
  LoadStatistics : Unit
  ManualLaunchAllowed : Bool
  MonitorData : MonitorData
  NumExecutors : Int
  Offline : Bool
  OfflineCause : Unit
  OfflineCauseReason : String
  OneOffExecutors : List GoAny
  TemporarilyOffline : Bool
deriving DecidableEq, Repr

/-- The zero value of `NodeResponse` (what `new(NodeResponse)` points to). -/
def NodeResponse.zero : NodeResponse :=
  { Class := "", Actions := [], DisplayName := "", Description := "",
    AssignedLabels := [], Executors := [], Icon := "", IconClassName := "",
    Idle := false, JnlpAgent := false, LaunchSupported := false,
    LoadStatistics := (), ManualLaunchAllowed := false,
    MonitorData :=
      { Hudson_NodeMonitors_ArchitectureMonitor := .nil,
        Hudson_NodeMonitors_ClockMonitor := .nil,
        Hudson_NodeMonitors_DiskSpaceMonitor := .nil,
        Hudson_NodeMonitors_ResponseTimeMonitor := { Average := 0 },
        Hudson_NodeMonitors_SwapSpaceMonitor := .nil,
        Hudson_NodeMonitors_TemporarySpaceMonitor := .nil },
    NumExecutors := 0, Offline := false, OfflineCause := (),
    OfflineCauseReason := "", OneOffExecutors := [],
    TemporarilyOffline := false }

/-! ## The requester and the request trace -/

/-- HTTP method of a request issued through the requester. -/
inductive Method where
  | GET
  | POST
deriving DecidableEq, Repr

/-- One request as it leaves the node proxy: method, path and form fields
(`map[string]string`, listed in the order of the source's map literal; a nil
map is the empty list). -/
structure Request where
  method : Method
  path : String
  query : List (String × String)
deriving DecidableEq, Repr

/-- The shared HTTP requester, over a server state `σ`.  Each handler yields the
next server state and either the response's status code or an error.
`Get` also yields the text it wrote into the caller's string buffer, `GetJSON`
the snapshot as it stands after decoding into it. -/
structure Requester (σ : Type) where
  Post : σ → String → List (String × String) → σ × Except GoError Int
  Get : σ → String → σ × String × Except GoError Int
  GetJSON : σ → String → NodeResponse → σ × NodeResponse × Except GoError Int

/-- The client object; `node.go` uses only its `Requester` field. -/
structure Jenkins (σ : Type) where
  Requester : Requester σ

/-- The node proxy (`type Node`). -/
structure Node (σ : Type) where
  Raw : NodeResponse
  Jenkins : Jenkins σ
  Base : String

/-- Server state and the requests issued so far, oldest first. -/
structure World (σ : Type) where
  server : σ
  trace : List Request

variable {σ : Type}

/-- The call `n.Jenkins.Requester.Post(ctx, path, nil, nil, qr)`, recorded. -/
def Node.requestPost (n : Node σ) (w : World σ) (path : String)
    (qr : List (String × String)) : Except GoError Int × World σ :=
  let r := n.Jenkins.Requester.Post w.server path qr
  (r.2, { server := r.1, trace := w.trace ++ [⟨.POST, path, qr⟩] })

/-- The call `n.Jenkins.Requester.Get(ctx, path, &log, nil)`, recorded; the
first component is the content of `log` afterwards. -/
def Node.requestGet (n : Node σ) (w : World σ) (path : String) :
    String × Except GoError Int × World σ :=
  let r := n.Jenkins.Requester.Get w.server path
  (r.2.1, r.2.2, { server := r.1, trace := w.trace ++ [⟨.GET, path, []⟩] })

/-- The call `n.Jenkins.Requester.GetJSON(ctx, path, n.Raw, nil)`, recorded; the
node returned carries the snapshot as the requester left it. -/
def Node.requestGetJSON (n : Node σ) (w : World σ) (path : String) :
    Except GoError Int × Node σ × World σ :=
  let r := n.Jenkins.Requester.GetJSON w.server path n.Raw
  (r.2.2, { n with Raw := r.2.1 },
    { server := r.1, trace := w.trace ++ [⟨.GET, path, []⟩] })

/-! ## Methods of `Node` -/

/-- `func (n *Node) Poll` (lines 211-217). -/
def Node.Poll (n : Node σ) (w : World σ) : (Int × Option GoError) × Node σ × World σ :=
  match n.requestGetJSON w n.Base with
  | (.error err, n1, w1) => ((0, some err), n1, w1)
  | (.ok StatusCode, n1, w1) => ((StatusCode, none), n1, w1)

/-- `func (n *Node) Info` (lines 90-96); `none` is the nil snapshot pointer. -/
def Node.Info (n : Node σ) (w : World σ) :
    (Option NodeResponse × Option GoError) × Node σ × World σ :=
  match n.Poll w with
  | ((_, some err), n1, w1) => ((none, some err), n1, w1)
  | ((_, none), n1, w1) => ((some n1.Raw, none), n1, w1)

/-- `func (n *Node) GetName` (lines 98-100). -/
def Node.GetName (n : Node σ) : String := n.Raw.DisplayName

/-- `func (n *Node) Delete` (lines 102-108). -/
def Node.Delete (n : Node σ) (w : World σ) : (Bool × Option GoError) × Node σ × World σ :=
  match n.requestPost w (n.Base ++ "/doDelete") [] with
  | (.error err, w1) => ((false, some err), n, w1)
  | (.ok StatusCode, w1) => ((StatusCode == 200, none), n, w1)

/-- `func (n *Node) IsOnline` (lines 110-116). -/
def Node.IsOnline (n : Node σ) (w : World σ) : (Bool × Option GoError) × Node σ × World σ :=
  match n.Poll w with
  | ((_, some err), n1, w1) => ((false, some err), n1, w1)
  | ((_, none), n1, w1) => ((!n1.Raw.Offline, none), n1, w1)

/-- `func (n *Node) IsTemporarilyOffline` (lines 118-124). -/
def Node.IsTemporarilyOffline (n : Node σ) (w : World σ) :
    (Bool × Option GoError) × Node σ × World σ :=
  match n.Poll w with
  | ((_, some err), n1, w1) => ((false, some err), n1, w1)
  | ((_, none), n1, w1) => ((n1.Raw.TemporarilyOffline, none), n1, w1)

/-- `func (n *Node) IsIdle` (lines 126-132). -/
def Node.IsIdle (n : Node σ) (w : World σ) : (Bool × Option GoError) × Node σ × World σ :=
  match n.Poll w with
  | ((_, some err), n1, w1) => ((false, some err), n1, w1)
  | ((_, none), n1, w1) => ((n1.Raw.Idle, none), n1, w1)

/-- `func (n *Node) IsJnlpAgent` (lines 134-140). -/
def Node.IsJnlpAgent (n : Node σ) (w : World σ) : (Bool × Option GoError) × Node σ × World σ :=
  match n.Poll w with
  | ((_, some err), n1, w1) => ((false, some err), n1, w1)
  | ((_, none), n1, w1) => ((n1.Raw.JnlpAgent, none), n1, w1)

/-- The query map built at lines 172-175 of `ToggleTemporarilyOffline`: the
default message, overwritten by `options[0].(string)` when an option is given. -/
def toggleQuery (options : List GoAny) : Outcome (List (String × String)) :=
  if options.length > 0 then
    match index0 options with
    | .panic msg => .panic msg
    | .ret v =>
      match v.assertString with
      | .panic msg => .panic msg
      | .ret s => .ret [("offlineMessage", s)]
  else .ret [("offlineMessage", "requested from gojenkins")]

/-- `func (n *Node) ToggleTemporarilyOffline` (lines 167-188). -/
def Node.ToggleTemporarilyOffline (n : Node σ) (w : World σ) (options : List GoAny) :
    Outcome (Bool × Option GoError) × Node σ × World σ :=
  match n.IsTemporarilyOffline w with
  | ((_, some err), n1, w1) => (.ret (false, some err), n1, w1)
  | ((state_before, none), n1, w1) =>
    match toggleQuery options with
    | .panic msg => (.panic msg, n1, w1)
    | .ret qr =>
      match n1.requestPost w1 (n1.Base ++ "/toggleOffline") qr with
      | (.error err, w2) => (.ret (false, some err), n1, w2)
      | (.ok _, w2) =>
        match n1.IsTemporarilyOffline w2 with
        | ((_, some err), n3, w3) => (.ret (false, some err), n3, w3)
        | ((new_state, none), n3, w3) =>
          if state_before == new_state then
            (.ret (false, some (errors.New "Node state not changed")), n3, w3)
          else (.ret (true, none), n3, w3)

/-- `func (n *Node) SetOnline` (lines 142-158). -/
def Node.SetOnline (n : Node σ) (w : World σ) :
    Outcome (Bool × Option GoError) × Node σ × World σ :=
  match n.Poll w with
  | ((_, some err), n1, w1) => (.ret (false, some err), n1, w1)
  | ((_, none), n1, w1) =>
    if n1.Raw.Offline && !n1.Raw.TemporarilyOffline then
      (.ret (false, some (errors.New "Node is Permanently offline, can't bring it up")), n1, w1)
    else if n1.Raw.Offline && n1.Raw.TemporarilyOffline then
      n1.ToggleTemporarilyOffline w1 []
    else (.ret (true, none), n1, w1)

/-- `func (n *Node) SetOffline` (lines 160-165). -/
def Node.SetOffline (n : Node σ) (w : World σ) (options : List GoAny) :
    Outcome (Bool × Option GoError) × Node σ × World σ :=
  if !n.Raw.Offline then
    n.ToggleTemporarilyOffline w options
  else (.ret (false, some (errors.New "Node already Offline")), n, w)

/-- `func (n *Node) ChangeOfflineCause` (lines 190-209).  The guard at line 195
compares the length of `options` with zero by `<`. -/
def Node.ChangeOfflineCause (n : Node σ) (w : World σ) (options : List GoAny) :
    Outcome (Bool × Option GoError) × Node σ × World σ :=
  if !n.Raw.TemporarilyOffline then
    (.ret (false, some (errors.New "node is not offline, can't change offline cause")), n, w)
  else if (options.length : Int) < 0 then
    (.ret (false, some (errors.New "no offline cause provided")), n, w)
  else
    match index0 options with
    | .panic msg => (.panic msg, n, w)
    | .ret v =>
      match v.assertString with
      | .panic msg => (.panic msg, n, w)
      | .ret newOfflineMsg =>
        match n.requestPost w (n.Base ++ "/changeOfflineCause")
            [("offlineMessage", newOfflineMsg), ("Submit", "")] with
        | (.error err, w1) => (.ret (false, some err), n, w1)
        | (.ok _, w1) => (.ret (true, none), n, w1)

/-- `func (n *Node) GetLogText` (lines 244-258). -/
def Node.GetLogText (n : Node σ) (w : World σ) : (String × Option GoError) × Node σ × World σ :=
  match n.requestPost w (n.Base ++ "/log") [] with
  | (.error err, w1) => (("", some err), n, w1)
  | (.ok _, w1) =>
    match n.requestGet w1 (n.Base ++ "/logText/progressiveHtml/") with
    | (_, .error err, w2) => (("", some err), n, w2)
    | (log, .ok _, w2) => ((log, none), n, w2)

/-- `func (n *Node) GetDescription` (lines 260-262). -/
def Node.GetDescription (n : Node σ) : String := n.Raw.Description

/-- `func (n *Node) SubmitDescription` (lines 264-270). -/
def Node.SubmitDescription (n : Node σ) (w : World σ) (description : String) :
    Option GoError × Node σ × World σ :=
  match n.requestPost w (n.Base ++ "/submitDescription") [("description", description)] with
  | (.error err, w1) => (some err, n, w1)
  | (.ok _, w1) => (none, n, w1)

/-- Calls `SetOnline` `k` times in a row on the same proxy, nothing in between;
yields the results in call order and the final node and world. -/
def Node.SetOnlineTimes (n : Node σ) (w : World σ) :
    Nat → List (Outcome (Bool × Option GoError)) × Node σ × World σ
  | 0 => ([], n, w)
  | k + 1 =>
    let r := n.SetOnline w
    let rest := Node.SetOnlineTimes r.2.1 r.2.2 k
    (r.1 :: rest.1, rest.2)

/-- The argument list a caller passes for an optional reason: nothing, or the
reason as a string. -/
def reasonArgs : Option String → List GoAny
  | none => []
  | some reason => [.str reason]

/-! ## Concrete servers used to exercise the theorems -/

/-- A server whose state is the pair (offline, temporarilyOffline) it reports.
A POST to `/computer/agent1/toggleOffline` flips the temporarily-offline flag
and sets offline to the same value; every other POST changes nothing. -/
def mockRequester : Requester (Bool × Bool) where
  Post := fun s path _ =>
    if path == "/computer/agent1/toggleOffline" then ((!s.2, !s.2), .ok 200)
    else (s, .ok 200)
  Get := fun s _ => (s, "agent log", .ok 200)
  GetJSON := fun s _ raw =>
    (s, { raw with Offline := s.1, TemporarilyOffline := s.2 }, .ok 200)

/-- A server on which every request is answered with an error. -/
def failingRequester : Requester Unit where
  Post := fun s _ _ => (s, .error ⟨"connection refused"⟩)
  Get := fun s _ => (s, "", .error ⟨"connection refused"⟩)
  GetJSON := fun s _ raw => (s, raw, .error ⟨"connection refused"⟩)

/-- A server that accepts the toggle POST with status 200 but never changes the
node: it keeps reporting offline and temporarily offline. -/
def stuckRequester : Requester Unit where
  Post := fun s _ _ => (s, .ok 200)
  Get := fun s _ => (s, "", .ok 200)
  GetJSON := fun s _ raw =>
    (s, { raw with Offline := true, TemporarilyOffline := true }, .ok 200)

/-- A proxy for `/computer/agent1` on `mockRequester` with a zero snapshot. -/
def mockNode : Node (Bool × Bool) :=
  { Raw := NodeResponse.zero, Jenkins := ⟨mockRequester⟩, Base := "/computer/agent1" }

/-- A proxy for `/computer/agent1` on `failingRequester`. -/
def failingNode : Node Unit :=
  { Raw := NodeResponse.zero, Jenkins := ⟨failingRequester⟩, Base := "/computer/agent1" }

/-- A proxy for `/computer/agent1` on `stuckRequester`. -/
def stuckNode : Node Unit :=
  { Raw := NodeResponse.zero, Jenkins := ⟨stuckRequester⟩, Base := "/computer/agent1" }

/-! ## Theorems -/

/-- C1: when the refresh GET of `SetOnline` succeeds and leaves the snapshot
with `Offline = true` and `TemporarilyOffline = false`, `SetOnline` returns
`(false, "Node is Permanently offline, can't bring it up")` and the only request
it issues is that one GET on the base path; no POST is sent. -/
theorem setOnline_permanently_offline (n : Node σ) (w : World σ)
    (s1 : σ) (raw1 : NodeResponse) (code : Int)
    (hget : n.Jenkins.Requester.GetJSON w.server n.Base n.Raw = (s1, raw1, .ok code))
    (hoff : raw1.Offline = true) (htmp : raw1.TemporarilyOffline = false) :
    n.SetOnline w =
      (.ret (false, some (errors.New "Node is Permanently offline, can't bring it up")),
        { n with Raw := raw1 },
        { server := s1, trace := w.trace ++ [⟨.GET, n.Base, []⟩] }) := by
  simp [Node.SetOnline, Node.Poll, Node.requestGetJSON, hget, hoff, htmp]

/-- Witness for C1: a server reporting offline and not temporarily offline. -/
theorem setOnline_permanently_offline_witness :
    mockNode.SetOnline ⟨(true, false), []⟩ =
      (.ret (false, some (errors.New "Node is Permanently offline, can't bring it up")),
        { mockNode with Raw := { NodeResponse.zero with Offline := true } },
        { server := (true, false), trace := [⟨.GET, "/computer/agent1", []⟩] }) :=
  setOnline_permanently_offline mockNode ⟨(true, false), []⟩ (true, false)
    { NodeResponse.zero with Offline := true } 200 rfl rfl rfl

/-- The query map that `ToggleTemporarilyOffline` sends for an optional reason. -/
theorem toggleQuery_reasonArgs (reason : Option String) :
    toggleQuery (reasonArgs reason) =
      .ret [("offlineMessage", reason.getD "requested from gojenkins")] := by
  cases reason <;> simp [toggleQuery, reasonArgs, index0, GoAny.assertString]

/-- C2: when both refreshes and the toggle POST of `ToggleTemporarilyOffline`
return without error and the `TemporarilyOffline` value read before the POST
equals the one read after it, the call returns
`(false, "Node state not changed")`, for every optional reason and whatever
status codes the three requests carried. -/
theorem toggle_state_not_changed (n : Node σ) (w : World σ) (reason : Option String)
    (s1 s2 s3 : σ) (raw1 raw3 : NodeResponse) (c1 c2 c3 : Int)
    (hget1 : n.Jenkins.Requester.GetJSON w.server n.Base n.Raw = (s1, raw1, .ok c1))
    (hpost : n.Jenkins.Requester.Post s1 (n.Base ++ "/toggleOffline")
      [("offlineMessage", reason.getD "requested from gojenkins")] = (s2, .ok c2))
    (hget2 : n.Jenkins.Requester.GetJSON s2 n.Base raw1 = (s3, raw3, .ok c3))
    (hsame : raw1.TemporarilyOffline = raw3.TemporarilyOffline) :
    (n.ToggleTemporarilyOffline w (reasonArgs reason)).1 =
      .ret (false, some (errors.New "Node state not changed")) := by
  simp [Node.ToggleTemporarilyOffline, Node.IsTemporarilyOffline, Node.Poll,
    Node.requestGetJSON, Node.requestPost, toggleQuery_reasonArgs, hget1, hpost, hget2, hsame]

/-- Witness for C2: a server that answers the toggle POST with 200 and keeps
reporting the node as temporarily offline. -/
theorem toggle_state_not_changed_witness :
    (stuckNode.ToggleTemporarilyOffline ⟨(), []⟩ (reasonArgs (some "maintenance"))).1 =
      .ret (false, some (errors.New "Node state not changed")) :=
  toggle_state_not_changed stuckNode ⟨(), []⟩ (some "maintenance") () () ()
    { NodeResponse.zero with Offline := true, TemporarilyOffline := true }
    { NodeResponse.zero with Offline := true, TemporarilyOffline := true }
    200 200 200 rfl rfl rfl rfl

/-- C3: when the first refresh of `ToggleTemporarilyOffline` yields
`TemporarilyOffline = b`, the toggle POST returns without error and the second
refresh yields `TemporarilyOffline = !b`, the call returns `(true, nil)` and the
requests it issues are exactly GET base, POST base + "/toggleOffline" (carrying
the offline message), GET base, in this order. -/
theorem toggle_success (n : Node σ) (w : World σ) (reason : Option String) (b : Bool)
    (s1 s2 s3 : σ) (raw1 raw3 : NodeResponse) (c1 c2 c3 : Int)
    (hget1 : n.Jenkins.Requester.GetJSON w.server n.Base n.Raw = (s1, raw1, .ok c1))
    (hbefore : raw1.TemporarilyOffline = b)
    (hpost : n.Jenkins.Requester.Post s1 (n.Base ++ "/toggleOffline")
      [("offlineMessage", reason.getD "requested from gojenkins")] = (s2, .ok c2))
    (hget2 : n.Jenkins.Requester.GetJSON s2 n.Base raw1 = (s3, raw3, .ok c3))
    (hafter : raw3.TemporarilyOffline = !b) :
    n.ToggleTemporarilyOffline w (reasonArgs reason) =
      (.ret (true, none), { n with Raw := raw3 },
        { server := s3,
          trace := w.trace ++
            [⟨.GET, n.Base, []⟩,
             ⟨.POST, n.Base ++ "/toggleOffline",
               [("offlineMessage", reason.getD "requested from gojenkins")]⟩,
             ⟨.GET, n.Base, []⟩] }) := by
  simp [Node.ToggleTemporarilyOffline, Node.IsTemporarilyOffline, Node.Poll,
    Node.requestGetJSON, Node.requestPost, toggleQuery_reasonArgs, hget1, hpost, hget2,
    hbefore, hafter]

/-- Witness for C3: the server answers `{offline: true, temporarilyOffline: true}`
and, after the toggle, `{offline: false, temporarilyOffline: false}`. -/
theorem toggle_success_witness :
    mockNode.ToggleTemporarilyOffline ⟨(true, true), []⟩ (reasonArgs none) =
      (.ret (true, none), mockNode,
        { server := (false, false),
          trace :=
            [⟨.GET, "/computer/agent1", []⟩,
             ⟨.POST, "/computer/agent1/toggleOffline",
               [("offlineMessage", "requested from gojenkins")]⟩,
             ⟨.GET, "/computer/agent1", []⟩] }) :=
  toggle_success mockNode ⟨(true, true), []⟩ none true (true, true) (false, false) (false, false)
    { NodeResponse.zero with Offline := true, TemporarilyOffline := true }
    NodeResponse.zero 200 200 200 rfl rfl rfl rfl rfl

/-- C6: `GetLogText` first POSTs to base + "/log" and only then GETs
base + "/logText/progressiveHtml/".  If the POST returns an error, the result is
`("", that error)` and the POST is the only request; if the POST succeeds the GET
follows, and the result is the body the GET delivered with a nil error (or
`("", error)` when the GET fails).  In every case the requests issued are the
POST alone or the POST followed by the GET. -/
theorem getLogText_protocol (n : Node σ) (w : World σ) :
    (∀ s1 err, n.Jenkins.Requester.Post w.server (n.Base ++ "/log") [] = (s1, .error err) →
      n.GetLogText w =
        (("", some err), n,
          { server := s1, trace := w.trace ++ [⟨.POST, n.Base ++ "/log", []⟩] })) ∧
    (∀ s1 c1 s2 body c2,
      n.Jenkins.Requester.Post w.server (n.Base ++ "/log") [] = (s1, .ok c1) →
      n.Jenkins.Requester.Get s1 (n.Base ++ "/logText/progressiveHtml/") = (s2, body, .ok c2) →
      n.GetLogText w =
        ((body, none), n,
          { server := s2,
            trace := w.trace ++
              [⟨.POST, n.Base ++ "/log", []⟩,
               ⟨.GET, n.Base ++ "/logText/progressiveHtml/", []⟩] })) ∧
    (∀ s1 c1 s2 body err,
      n.Jenkins.Requester.Post w.server (n.Base ++ "/log") [] = (s1, .ok c1) →
      n.Jenkins.Requester.Get s1 (n.Base ++ "/logText/progressiveHtml/")
        = (s2, body, .error err) →
      n.GetLogText w =
        (("", some err), n,
          { server := s2,
            trace := w.trace ++
              [⟨.POST, n.Base ++ "/log", []⟩,
               ⟨.GET, n.Base ++ "/logText/progressiveHtml/", []⟩] })) ∧
    ((n.GetLogText w).2.2.trace = w.trace ++ [⟨.POST, n.Base ++ "/log", []⟩] ∨
      (n.GetLogText w).2.2.trace =
        w.trace ++
          [⟨.POST, n.Base ++ "/log", []⟩,
           ⟨.GET, n.Base ++ "/logText/progressiveHtml/", []⟩]) := by
  refine ⟨?_, ?_, ?_, ?_⟩
  · intro s1 err hpost
    simp [Node.GetLogText, Node.requestPost, hpost]
  · intro s1 c1 s2 body c2 hpost hget
    simp [Node.GetLogText, Node.requestPost, Node.requestGet, hpost, hget]
  · intro s1 c1 s2 body err hpost hget
    simp [Node.GetLogText, Node.requestPost, Node.requestGet, hpost, hget]
  · rcases hp : n.Jenkins.Requester.Post w.server (n.Base ++ "/log") [] with ⟨s1, r1⟩
    cases r1 with
    | error err => left; simp [Node.GetLogText, Node.requestPost, hp]
    | ok c1 =>
      right
      rcases hg : n.Jenkins.Requester.Get s1 (n.Base ++ "/logText/progressiveHtml/")
        with ⟨s2, body, r2⟩
      cases r2 <;> simp [Node.GetLogText, Node.requestPost, Node.requestGet, hp, hg]

/-- Witness for C6: on a server that refuses every request only the POST is
issued; on the mock server the POST is followed by the GET and its body is
returned. -/
theorem getLogText_protocol_witness :
    failingNode.GetLogText ⟨(), []⟩ =
        (("", some ⟨"connection refused"⟩), failingNode,
          { server := (), trace := [⟨.POST, "/computer/agent1/log", []⟩] }) ∧
      mockNode.GetLogText ⟨(false, false), []⟩ =
        (("agent log", none), mockNode,
          { server := (false, false),
            trace :=
              [⟨.POST, "/computer/agent1/log", []⟩,
               ⟨.GET, "/computer/agent1/logText/progressiveHtml/", []⟩] }) :=
  ⟨(getLogText_protocol failingNode ⟨(), []⟩).1 () ⟨"connection refused"⟩ rfl,
    (getLogText_protocol mockNode ⟨(false, false), []⟩).2.1
      (false, false) 200 (false, false) "agent log" 200 rfl rfl⟩

/-- C7: with a cached snapshot that has `Offline = true`, `SetOffline` returns
`(false, "Node already Offline")` for any arguments, issues no request and
leaves snapshot and server untouched; with a cached snapshot that has
`Offline = false` it returns exactly what `ToggleTemporarilyOffline` returns
with the same arguments. -/
theorem setOffline_cached (n : Node σ) (w : World σ) (options : List GoAny) :
    (n.Raw.Offline = true →
      n.SetOffline w options =
        (.ret (false, some (errors.New "Node already Offline")), n, w)) ∧
    (n.Raw.Offline = false →
      n.SetOffline w options = n.ToggleTemporarilyOffline w options) := by
  constructor <;> intro h <;> simp [Node.SetOffline, h]

/-- Witness for C7: an offline snapshot on a server that would toggle, and an
online snapshot on the same server. -/
theorem setOffline_cached_witness :
    ({ mockNode with Raw := { NodeResponse.zero with Offline := true } }.SetOffline
        ⟨(false, false), []⟩ (reasonArgs (some "maintenance")) =
      (.ret (false, some (errors.New "Node already Offline")),
        { mockNode with Raw := { NodeResponse.zero with Offline := true } },
        ⟨(false, false), []⟩)) ∧
    mockNode.SetOffline ⟨(false, false), []⟩ (reasonArgs (some "maintenance")) =
      mockNode.ToggleTemporarilyOffline ⟨(false, false), []⟩ (reasonArgs (some "maintenance")) :=
  ⟨(setOffline_cached { mockNode with Raw := { NodeResponse.zero with Offline := true } }
      ⟨(false, false), []⟩ (reasonArgs (some "maintenance"))).1 rfl,
    (setOffline_cached mockNode ⟨(false, false), []⟩ (reasonArgs (some "maintenance"))).2 rfl⟩

/-- C9: with a cached snapshot that has `TemporarilyOffline = false`,
`ChangeOfflineCause` returns
`(false, "node is not offline, can't change offline cause")` for every argument
list, the empty one included, on every server and in every server state; it
neither refreshes the snapshot nor issues a request. -/
theorem changeOfflineCause_not_offline (n : Node σ) (w : World σ) (options : List GoAny)
    (h : n.Raw.TemporarilyOffline = false) :
    n.ChangeOfflineCause w options =
      (.ret (false, some (errors.New "node is not offline, can't change offline cause")),
        n, w) := by
  simp [Node.ChangeOfflineCause, h]

/-- Witness for C9: the cached snapshot says not temporarily offline while the
server by now reports the node as temporarily offline. -/
theorem changeOfflineCause_not_offline_witness :
    mockNode.ChangeOfflineCause ⟨(true, true), []⟩ [] =
      (.ret (false, some (errors.New "node is not offline, can't change offline cause")),
        mockNode, ⟨(true, true), []⟩) :=
  changeOfflineCause_not_offline mockNode ⟨(true, true), []⟩ [] rfl

/-- C10: `Delete` issues exactly one request, a POST to base + "/doDelete"
without form fields.  If the POST returns an error, `Delete` returns
`(false, that error)`; otherwise it returns `(b, nil)` where `b` is true exactly
when the status code is 200. -/
theorem delete_status (n : Node σ) (w : World σ) :
    (n.Delete w).2.2.trace = w.trace ++ [⟨.POST, n.Base ++ "/doDelete", []⟩] ∧
    (∀ s1 err, n.Jenkins.Requester.Post w.server (n.Base ++ "/doDelete") [] = (s1, .error err) →
      (n.Delete w).1 = (false, some err)) ∧
    (∀ s1 code, n.Jenkins.Requester.Post w.server (n.Base ++ "/doDelete") [] = (s1, .ok code) →
      ∃ b : Bool, (n.Delete w).1 = (b, none) ∧ (b = true ↔ code = 200)) := by
  refine ⟨?_, ?_, ?_⟩
  · rcases hp : n.Jenkins.Requester.Post w.server (n.Base ++ "/doDelete") [] with ⟨s1, r1⟩
    cases r1 <;> simp [Node.Delete, Node.requestPost, hp]
  · intro s1 err hp
    simp [Node.Delete, Node.requestPost, hp]
  · intro s1 code hp
    refine ⟨code == 200, ?_, ?_⟩
    · simp [Node.Delete, Node.requestPost, hp]
    · simp

/-- Witness for C10: the mock server answers the delete POST with status 200,
the failing server with an error. -/
theorem delete_status_witness :
    (∃ b : Bool, (mockNode.Delete ⟨(false, false), []⟩).1 = (b, none) ∧
        (b = true ↔ (200 : Int) = 200)) ∧
      (failingNode.Delete ⟨(), []⟩).1 = (false, some ⟨"connection refused"⟩) :=
  ⟨(delete_status mockNode ⟨(false, false), []⟩).2.2 (false, false) 200 rfl,
    (delete_status failingNode ⟨(), []⟩).2.1 () ⟨"connection refused"⟩ rfl⟩

/-- One `SetOnline` call whose refresh succeeds and reports `Offline = false`. -/
theorem setOnline_online_step (n : Node σ) (w : World σ)
    (s1 : σ) (raw1 : NodeResponse) (code : Int)
    (hget : n.Jenkins.Requester.GetJSON w.server n.Base n.Raw = (s1, raw1, .ok code))
    (hoff : raw1.Offline = false) :
    n.SetOnline w =
      (.ret (true, none), { n with Raw := raw1 },
        { server := s1, trace := w.trace ++ [⟨.GET, n.Base, []⟩] }) := by
  simp [Node.SetOnline, Node.Poll, Node.requestGetJSON, hget, hoff]

/-- Repeated `SetOnline` against a requester whose every refresh succeeds and
reports `Offline = false`: all calls return `(true, nil)`, one GET per call. -/
theorem setOnlineTimes_online (R : Requester σ) (base : String)
    (hR : ∀ s raw, ∃ code, (R.GetJSON s base raw).2.2 = .ok code ∧
      (R.GetJSON s base raw).2.1.Offline = false) :
    ∀ (k : Nat) (n : Node σ) (w : World σ), n.Jenkins.Requester = R → n.Base = base →
      (n.SetOnlineTimes w k).1 = List.replicate k (.ret (true, none)) ∧
      (n.SetOnlineTimes w k).2.2.trace = w.trace ++ List.replicate k ⟨.GET, base, []⟩ := by
  intro k
  induction k with
  | zero => intro n w _ _; simp [Node.SetOnlineTimes]
  | succ k ih =>
    intro n w hJ hB
    obtain ⟨code, hok, hoff⟩ := hR w.server n.Raw
    have hget : n.Jenkins.Requester.GetJSON w.server n.Base n.Raw =
        ((R.GetJSON w.server base n.Raw).1, (R.GetJSON w.server base n.Raw).2.1, .ok code) := by
      rw [hJ, hB, ← hok]
    have hstep := setOnline_online_step n w _ _ code hget hoff
    have hrec := ih { n with Raw := (R.GetJSON w.server base n.Raw).2.1 }
      { server := (R.GetJSON w.server base n.Raw).1,
        trace := w.trace ++ [⟨.GET, n.Base, []⟩] } hJ hB
    simp only [Node.SetOnlineTimes, hstep]
    refine ⟨?_, ?_⟩
    · rw [hrec.1, List.replicate_succ]
    · rw [hrec.2, hB, List.replicate_succ, List.append_assoc]
      rfl

/-- C8: when the refresh GET of `SetOnline` succeeds and leaves the snapshot
with `Offline = false`, `SetOnline` returns `(true, nil)` and issues no request
besides that GET.  Consequently, against a server whose every refresh succeeds
and reports `Offline = false`, `k` calls in a row all return `(true, nil)` and
issue `k` GETs and nothing else. -/
theorem setOnline_already_online (n : Node σ) (w : World σ) :
    (∀ s1 raw1 code,
      n.Jenkins.Requester.GetJSON w.server n.Base n.Raw = (s1, raw1, .ok code) →
      raw1.Offline = false →
      n.SetOnline w =
        (.ret (true, none), { n with Raw := raw1 },
          { server := s1, trace := w.trace ++ [⟨.GET, n.Base, []⟩] })) ∧
    ((∀ s raw, ∃ code, (n.Jenkins.Requester.GetJSON s n.Base raw).2.2 = .ok code ∧
        (n.Jenkins.Requester.GetJSON s n.Base raw).2.1.Offline = false) →
      ∀ k : Nat,
        (n.SetOnlineTimes w k).1 = List.replicate k (.ret (true, none)) ∧
        (n.SetOnlineTimes w k).2.2.trace =
          w.trace ++ List.replicate k ⟨.GET, n.Base, []⟩) :=
  ⟨fun s1 raw1 code hget hoff => setOnline_online_step n w s1 raw1 code hget hoff,
    fun hR k => setOnlineTimes_online n.Jenkins.Requester n.Base hR k n w rfl rfl⟩

/-- A server that always reports the node as online. -/
def onlineRequester : Requester Unit where
  Post := fun s _ _ => (s, .ok 200)
  Get := fun s _ => (s, "", .ok 200)
  GetJSON := fun s _ raw =>
    (s, { raw with Offline := false, TemporarilyOffline := false }, .ok 200)

/-- A proxy for `/computer/agent1` on `onlineRequester`. -/
def onlineNode : Node Unit :=
  { Raw := NodeResponse.zero, Jenkins := ⟨onlineRequester⟩, Base := "/computer/agent1" }

/-- Witness for C8: one call, and three calls in a row, on a server that keeps
reporting the node as online. -/
theorem setOnline_already_online_witness :
    onlineNode.SetOnline ⟨(), []⟩ =
        (.ret (true, none), onlineNode,
          { server := (), trace := [⟨.GET, "/computer/agent1", []⟩] }) ∧
      ((onlineNode.SetOnlineTimes ⟨(), []⟩ 3).1 =
          [.ret (true, none), .ret (true, none), .ret (true, none)] ∧
        (onlineNode.SetOnlineTimes ⟨(), []⟩ 3).2.2.trace =
          [⟨.GET, "/computer/agent1", []⟩, ⟨.GET, "/computer/agent1", []⟩,
           ⟨.GET, "/computer/agent1", []⟩]) :=
  ⟨(setOnline_already_online onlineNode ⟨(), []⟩).1 () NodeResponse.zero 200 rfl rfl,
    (setOnline_already_online onlineNode ⟨(), []⟩).2 (fun _ _ => ⟨200, rfl, rfl⟩) 3⟩

/-- C5 fails on the code: on a node whose cached snapshot has
`TemporarilyOffline = true`, `ChangeOfflineCause` called without a reason does
not return the error "no offline cause provided".  The guard `len(options) < 0`
never holds, so the call goes on to `options[0]` and panics with an index out
of range; no request has been sent at that point. -/
theorem changeOfflineCause_no_reason_panics :
    { mockNode with
        Raw := { NodeResponse.zero with Offline := true, TemporarilyOffline := true } }.ChangeOfflineCause
        ⟨(true, true), []⟩ [] =
      (.panic "runtime error: index out of range [0] with length 0",
        { mockNode with
          Raw := { NodeResponse.zero with Offline := true, TemporarilyOffline := true } },
        ⟨(true, true), []⟩) := by
  rfl

end Gojenkins
